import Mathlib

/-!
Verification of the grid-snapping library (src/lib.rs).

Modelling conventions:
  - Rust `f32` vector arithmetic (`Vec2`, `Vec3`) is embedded over the exact
    rationals; the arithmetic of the specification is exact, and all concrete
    values appearing in the claims are exactly representable.
  - Rust `u32` values are `Nat`; the casts `u32 as i32` (wrapping),
    `f32 as i32` (truncation with saturation, as in Rust) and `i32 as u32`
    (wrapping) are modelled explicitly.
  - `i32::clamp(lo, hi)` asserts `lo <= hi` and aborts otherwise; functions
    that may hit that assertion return `Except Unit`, with `.error ()`
    standing for the abort.
  - The ECS world (entities holding `Grid`/`Transform`/`GridCell`/
    `AttachedToGrid` components) is an explicit state record; each observer
    becomes a state-transforming function, and a triggered event is run
    synchronously after the triggering observer, as the command queue does.
-/

namespace GridSnapping

/-- Rounding to the nearest integer, halves away from zero, as `f32::round`. -/
def roundQ (q : ℚ) : Int :=
if 0 ≤ q then ⌊q + 1 / 2⌋ else ⌈q - 1 / 2⌉

/-- Truncation toward zero, the integral part of a rational. -/
def ratTrunc (q : ℚ) : Int :=
if 0 ≤ q then ⌊q⌋ else ⌈q⌉

/-- The cast `f32 as i32`: truncation toward zero, saturating at the i32 range. -/
def toI32sat (q : ℚ) : Int :=
max (-(2 ^ 31)) (min (2 ^ 31 - 1) (ratTrunc q))

/-- The cast `u32 as i32`: two-complement wrapping reinterpretation. -/
def toI32wrap (n : Nat) : Int :=
if n % 2 ^ 32 < 2 ^ 31 then ((n % 2 ^ 32 : Nat) : Int) else ((n % 2 ^ 32 : Nat) : Int) - 2 ^ 32

/-- The cast `i32 as u32`: two-complement wrapping reinterpretation. -/
def toU32 (i : Int) : Nat :=
(i % (2 ^ 32 : Int)).toNat

/-- Rust `i32::clamp(self, min, max)`: asserts `min <= max` (modelled as
`.error ()` when violated), otherwise saturates into the interval. -/
def clampI32 (v lo hi : Int) : Except Unit Int :=
if lo ≤ hi then .ok (max lo (min v hi)) else .error ()

/-- glam `Vec2`, over exact rationals. -/
structure Vec2 where
  x : ℚ
  y : ℚ
deriving DecidableEq, Repr

/-- glam `Vec3`, over exact rationals. -/
structure Vec3 where
  x : ℚ
  y : ℚ
  z : ℚ
deriving DecidableEq, Repr

/-- glam `IVec2` (pairs of i32 values). -/
structure IVec2 where
  x : Int
  y : Int
deriving DecidableEq, Repr

/-- glam `UVec2` (pairs of u32 values). -/
structure UVec2 where
  x : Nat
  y : Nat
deriving DecidableEq, Repr

instance : Add Vec2 := ⟨fun a b => ⟨a.x + b.x, a.y + b.y⟩⟩

instance : Sub Vec2 := ⟨fun a b => ⟨a.x - b.x, a.y - b.y⟩⟩

instance : Mul Vec2 := ⟨fun a b => ⟨a.x * b.x, a.y * b.y⟩⟩

instance : Div Vec2 := ⟨fun a b => ⟨a.x / b.x, a.y / b.y⟩⟩

instance : Add Vec3 := ⟨fun a b => ⟨a.x + b.x, a.y + b.y, a.z + b.z⟩⟩

instance : Sub Vec3 := ⟨fun a b => ⟨a.x - b.x, a.y - b.y, a.z - b.z⟩⟩

/-- `Vec3::truncate`: drop the z component. -/
def Vec3.truncate (v : Vec3) : Vec2 :=
⟨v.x, v.y⟩

/-- `Vec3::with_z`: replace the z component. -/
def Vec3.with_z (v : Vec3) (z : ℚ) : Vec3 :=
⟨v.x, v.y, z⟩

/-- `Vec2::extend`: append a z component. -/
def Vec2.extend (v : Vec2) (z : ℚ) : Vec3 :=
⟨v.x, v.y, z⟩

/-- `Vec2::round`: componentwise rounding to the nearest integer. -/
def Vec2.round (v : Vec2) : Vec2 :=
⟨(roundQ v.x : ℚ), (roundQ v.y : ℚ)⟩

/-- `Vec2::as_ivec2`: componentwise `f32 as i32` cast. -/
def Vec2.as_ivec2 (v : Vec2) : IVec2 :=
⟨toI32sat v.x, toI32sat v.y⟩

/-- `IVec2::as_uvec2`: componentwise `i32 as u32` cast. -/
def IVec2.as_uvec2 (v : IVec2) : UVec2 :=
⟨toU32 v.x, toU32 v.y⟩

/-- `UVec2::as_vec2`: componentwise `u32 as f32` cast (exact in this model). -/
def UVec2.as_vec2 (v : UVec2) : Vec2 :=
⟨(v.x : ℚ), (v.y : ℚ)⟩

@[simp] theorem Vec2.add_x (a b : Vec2) : (a + b).x = a.x + b.x := rfl

@[simp] theorem Vec2.add_y (a b : Vec2) : (a + b).y = a.y + b.y := rfl

@[simp] theorem Vec2.sub_x (a b : Vec2) : (a - b).x = a.x - b.x := rfl

@[simp] theorem Vec2.sub_y (a b : Vec2) : (a - b).y = a.y - b.y := rfl

@[simp] theorem Vec2.mul_x (a b : Vec2) : (a * b).x = a.x * b.x := rfl

@[simp] theorem Vec2.mul_y (a b : Vec2) : (a * b).y = a.y * b.y := rfl

@[simp] theorem Vec2.div_x (a b : Vec2) : (a / b).x = a.x / b.x := rfl

@[simp] theorem Vec2.div_y (a b : Vec2) : (a / b).y = a.y / b.y := rfl

@[simp] theorem vec3_add_x (a b : Vec3) : (a + b).x = a.x + b.x := rfl

@[simp] theorem vec3_add_y (a b : Vec3) : (a + b).y = a.y + b.y := rfl

@[simp] theorem Vec3.add_z (a b : Vec3) : (a + b).z = a.z + b.z := rfl

@[simp] theorem vec3_sub_x (a b : Vec3) : (a - b).x = a.x - b.x := rfl

@[simp] theorem vec3_sub_y (a b : Vec3) : (a - b).y = a.y - b.y := rfl

@[simp] theorem Vec3.sub_z (a b : Vec3) : (a - b).z = a.z - b.z := rfl

@[simp] theorem Vec3.truncate_x (v : Vec3) : v.truncate.x = v.x := rfl

@[simp] theorem Vec3.truncate_y (v : Vec3) : v.truncate.y = v.y := rfl

@[simp] theorem Vec3.with_z_x (v : Vec3) (z : ℚ) : (v.with_z z).x = v.x := rfl

@[simp] theorem Vec3.with_z_y (v : Vec3) (z : ℚ) : (v.with_z z).y = v.y := rfl

@[simp] theorem Vec3.with_z_z (v : Vec3) (z : ℚ) : (v.with_z z).z = z := rfl

@[simp] theorem Vec2.extend_x (v : Vec2) (z : ℚ) : (v.extend z).x = v.x := rfl

@[simp] theorem Vec2.extend_y (v : Vec2) (z : ℚ) : (v.extend z).y = v.y := rfl

@[simp] theorem Vec2.extend_z (v : Vec2) (z : ℚ) : (v.extend z).z = z := rfl

@[simp] theorem Vec2.round_x (v : Vec2) : v.round.x = (roundQ v.x : ℚ) := rfl

@[simp] theorem Vec2.round_y (v : Vec2) : v.round.y = (roundQ v.y : ℚ) := rfl

@[simp] theorem Vec2.as_ivec2_x (v : Vec2) : v.as_ivec2.x = toI32sat v.x := rfl

@[simp] theorem Vec2.as_ivec2_y (v : Vec2) : v.as_ivec2.y = toI32sat v.y := rfl

@[simp] theorem IVec2.as_uvec2_x (v : IVec2) : v.as_uvec2.x = toU32 v.x := rfl

@[simp] theorem IVec2.as_uvec2_y (v : IVec2) : v.as_uvec2.y = toU32 v.y := rfl

@[simp] theorem UVec2.as_vec2_x (v : UVec2) : v.as_vec2.x = (v.x : ℚ) := rfl

@[simp] theorem UVec2.as_vec2_y (v : UVec2) : v.as_vec2.y = (v.y : ℚ) := rfl

theorem vec3_ext {a b : Vec3} (hx : a.x = b.x) (hy : a.y = b.y) (hz : a.z = b.z) :
    a = b := by
cases a
cases b
simp_all

/-- Rounding fixes integers. -/
theorem roundQ_intCast (m : Int) : roundQ ((m : ℚ)) = m := by
unfold roundQ
split
· rw [show ((m : ℚ) + 1 / 2) = (m : ℚ) + (1 / 2 : ℚ) by norm_num, Int.floor_int_add]
  norm_num
· rw [show ((m : ℚ) - 1 / 2) = (m : ℚ) + ((-1 : Int) : ℚ) / 2 by push_cast; ring]
  rw [show ((m : ℚ) + ((-1 : Int) : ℚ) / 2) = (((-1 : Int) : ℚ) / 2 + (m : ℚ)) by ring]
  rw [Int.ceil_add_int]
  norm_num

theorem roundQ_natCast (n : Nat) : roundQ ((n : ℚ)) = (n : Int) := by
rw [show ((n : ℚ)) = (((n : Int) : ℚ)) by norm_num]
exact roundQ_intCast n

/-- Truncation fixes integers. -/
theorem ratTrunc_intCast (m : Int) : ratTrunc ((m : ℚ)) = m := by
unfold ratTrunc
split <;> simp

theorem toI32sat_intCast (m : Int) :
    toI32sat ((m : ℚ)) = max (-(2 ^ 31)) (min (2 ^ 31 - 1) m) := by
unfold toI32sat
rw [ratTrunc_intCast]

theorem toI32sat_bounds (q : ℚ) : -(2 ^ 31) ≤ toI32sat q ∧ toI32sat q ≤ 2 ^ 31 - 1 := by
unfold toI32sat
refine ⟨le_max_left _ _, max_le (by norm_num) (min_le_left _ _)⟩

theorem toU32_of_nonneg {i : Int} (h0 : 0 ≤ i) (h1 : i < 2 ^ 32) : (toU32 i : Int) = i := by
unfold toU32
omega

theorem toU32_lt (i : Int) : toU32 i < 2 ^ 32 := by
unfold toU32
omega

theorem toI32wrap_small {d : Nat} (h : d ≤ 2 ^ 31 - 1) : toI32wrap d = (d : Int) := by
unfold toI32wrap
rw [if_pos (by omega)]
omega

theorem toU32_toNat {v : Int} (h0 : 0 ≤ v) (h1 : v < 2 ^ 32) : toU32 v = v.toNat := by
unfold toU32
omega

/-- bevy `Transform`, of which only the translation is relevant here. -/
structure Transform where
  translation : Vec3
deriving DecidableEq, Repr

/-- The `Grid` component (src/lib.rs, lines 41-46). -/
structure Grid where
  cell_size : Vec2
  cell_gap : Vec2
  offset : Vec2
  dimensions : Option Nat × Option Nat
deriving DecidableEq, Repr

/-- The `GridCell` component (src/lib.rs, lines 159-161). -/
structure GridCell where
  coordinate : UVec2
deriving DecidableEq, Repr

/-- `Grid::get_cell_position` (src/lib.rs, lines 49-51). -/
def Grid.get_cell_position (g : Grid) (cell : GridCell) : Vec3 :=
(cell.coordinate.as_vec2 * (g.cell_size + g.cell_gap) + g.offset).extend 0

/-- The `int_result` computed inside `Grid::get_cell_coordinate`
(src/lib.rs, lines 58-63): local translation, componentwise division by
`cell_gap + cell_size`, rounding, and the `as_ivec2` cast. -/
def Grid.int_result (g : Grid) (grid_transform cell_transform : Transform) : IVec2 :=
let local_translation :=
  (cell_transform.translation - grid_transform.translation).truncate - g.offset
((local_translation / (g.cell_gap + g.cell_size)).round).as_ivec2

/-- `Grid::is_coordinate_valid` (src/lib.rs, lines 90-93). -/
def Grid.is_coordinate_valid (g : Grid) (coordinate : UVec2) : Bool :=
(g.dimensions.1.all fun width => coordinate.x < width)
  && (g.dimensions.2.all fun height => coordinate.y < height)

/-- One axis of the `round_to_nearest` branch of `Grid::get_cell_coordinate`
(src/lib.rs, lines 68-77): `int_result.axis.clamp(0, dim as i32)` when the
axis has a declared dimension, `int_result.axis.max(0)` otherwise. -/
def clampAxis (v : Int) (dim : Option Nat) : Except Unit Int :=
match dim with
| some d => clampI32 v 0 (toI32wrap d)
| none => .ok (max v 0)

/-- `Grid::get_cell_coordinate` (src/lib.rs, lines 52-89). When
`round_to_nearest` is set, each axis with a declared dimension is clamped by
`i32::clamp(0, dim as i32)` (which aborts when `dim as i32` is negative,
hence the `Except`); an axis without a bound is floored at 0 by `max`.
Otherwise the raw value is returned only when both axes are non-negative and
`is_coordinate_valid` accepts the wrapped coordinate. -/
def Grid.get_cell_coordinate (g : Grid) (grid_transform cell_transform : Transform)
    (round_to_nearest : Bool) : Except Unit (Option UVec2) :=
let int_result := g.int_result grid_transform cell_transform
if round_to_nearest then
  match clampAxis int_result.x g.dimensions.1, clampAxis int_result.y g.dimensions.2 with
  | .ok a, .ok b => .ok (some ⟨toU32 a, toU32 b⟩)
  | _, _ => .error ()
else
  if (decide (0 ≤ int_result.x) && decide (0 ≤ int_result.y))
      && g.is_coordinate_valid int_result.as_uvec2 then
    .ok (some int_result.as_uvec2)
  else
    .ok none

/-- The components of `int_result` always lie in the i32 range. -/
theorem int_result_bounds (g : Grid) (gt ct : Transform) :
    (-(2 ^ 31) ≤ (g.int_result gt ct).x ∧ (g.int_result gt ct).x ≤ 2 ^ 31 - 1) ∧
      (-(2 ^ 31) ≤ (g.int_result gt ct).y ∧ (g.int_result gt ct).y ≤ 2 ^ 31 - 1) := by
unfold Grid.int_result
exact ⟨toI32sat_bounds _, toI32sat_bounds _⟩

/-- Spec-side description of the REJECT failure condition: a rounded raw axis
is negative, or the raw coordinate is at or above a declared bound. -/
def reject_condition (g : Grid) (gt ct : Transform) : Bool :=
(decide ((g.int_result gt ct).x < 0) || decide ((g.int_result gt ct).y < 0))
  || ((g.dimensions.1.any fun d => decide ((d : Int) ≤ (g.int_result gt ct).x))
    || (g.dimensions.2.any fun d => decide ((d : Int) ≤ (g.int_result gt ct).y)))

/-- Spec-side description of the CLAMP rule on one axis: clamp into
`[0, dimension]` when a bound is declared, else floor at 0. -/
def clampSpecAxis (v : Int) (dim : Option Nat) : Int :=
match dim with
| some d => max 0 (min v (d : Int))
| none => max 0 v

/-- A declared dimension fits in an i32. -/
def fitsI32 (o : Option Nat) : Bool :=
o.all fun d => decide (d ≤ 2 ^ 31 - 1)

/-- The guard of the REJECT branch is the negation of `reject_condition`. -/
theorem reject_guard (g : Grid) (gt ct : Transform) :
    (((decide (0 ≤ (g.int_result gt ct).x) && decide (0 ≤ (g.int_result gt ct).y))
        && g.is_coordinate_valid (g.int_result gt ct).as_uvec2) = true)
      ↔ reject_condition g gt ct = false := by
obtain ⟨⟨hx0, hx1⟩, hy0, hy1⟩ := int_result_bounds g gt ct
unfold reject_condition Grid.is_coordinate_valid
rcases hd : g.dimensions with ⟨dx, dy⟩
rcases dx with _ | dx <;> rcases dy with _ | dy <;>
  simp [hd, Option.all, Option.any, toU32, decide_eq_true_eq] <;>
  omega

/-- C2 helper: full description of `get_cell_coordinate` under REJECT. -/
theorem reject_characterization (g : Grid) (gt ct : Transform) :
    (g.get_cell_coordinate gt ct false = .ok none ↔ reject_condition g gt ct = true)
      ∧ (reject_condition g gt ct = false →
          g.get_cell_coordinate gt ct false = .ok (some (g.int_result gt ct).as_uvec2)
            ∧ (((g.int_result gt ct).as_uvec2.x : Int) = (g.int_result gt ct).x
              ∧ ((g.int_result gt ct).as_uvec2.y : Int) = (g.int_result gt ct).y)) := by
obtain ⟨⟨hx0, hx1⟩, hy0, hy1⟩ := int_result_bounds g gt ct
have hguard := reject_guard g gt ct
unfold Grid.get_cell_coordinate
simp only [Bool.false_eq_true, if_false]
constructor
· by_cases hrej : reject_condition g gt ct = true
  · rw [if_neg (by simp only [hguard, hrej]; simp)]
    simp [hrej]
  · have hfalse : reject_condition g gt ct = false := by
      cases hb : reject_condition g gt ct
      · rfl
      · exact absurd hb hrej
    rw [if_pos (hguard.mpr hfalse)]
    simp [hrej]
· intro hfalse
  have hg := hguard.mpr hfalse
  rw [if_pos hg]
  refine ⟨rfl, ?_, ?_⟩
  · have h0 : (0 ≤ (g.int_result gt ct).x) := by
      have := (Bool.and_eq_true _ _).mp ((Bool.and_eq_true _ _).mp hg).1
      simpa using this.1
    simp only [IVec2.as_uvec2_x]
    exact toU32_of_nonneg h0 (by omega)
  · have h0 : (0 ≤ (g.int_result gt ct).y) := by
      have := (Bool.and_eq_true _ _).mp ((Bool.and_eq_true _ _).mp hg).1
      simpa using this.2
    simp only [IVec2.as_uvec2_y]
    exact toU32_of_nonneg h0 (by omega)

/-- One CLAMP axis succeeds and matches the spec-side clamp whenever the
declared dimension fits in an i32. -/
theorem clamp_axis_ok (v : Int) (o : Option Nat) (hfit : fitsI32 o = true)
    (hv0 : -(2 ^ 31) ≤ v) (hv1 : v ≤ 2 ^ 31 - 1) :
    clampAxis v o = .ok (clampSpecAxis v o)
      ∧ 0 ≤ clampSpecAxis v o ∧ clampSpecAxis v o < 2 ^ 32 := by
rcases o with _ | d
· refine ⟨?_, by simp only [clampSpecAxis]; omega, by simp only [clampSpecAxis]; omega⟩
  simp only [clampAxis, clampSpecAxis]
  rw [max_comm]
· simp only [fitsI32, Option.all, decide_eq_true_eq] at hfit
  simp only [clampAxis, clampSpecAxis, clampI32]
  rw [toI32wrap_small hfit, if_pos (by omega)]
  refine ⟨rfl, by omega, by omega⟩

/-- C3 and C9 helper: full description of `get_cell_coordinate` under CLAMP
when the declared dimensions fit in an i32. -/
theorem clamp_characterization (g : Grid) (gt ct : Transform)
    (hx : fitsI32 g.dimensions.1 = true) (hy : fitsI32 g.dimensions.2 = true) :
    g.get_cell_coordinate gt ct true =
      .ok (some ⟨(clampSpecAxis (g.int_result gt ct).x g.dimensions.1).toNat,
          (clampSpecAxis (g.int_result gt ct).y g.dimensions.2).toNat⟩) := by
obtain ⟨⟨hx0, hx1⟩, hy0, hy1⟩ := int_result_bounds g gt ct
obtain ⟨ex, ex0, ex1⟩ := clamp_axis_ok (g.int_result gt ct).x g.dimensions.1 hx hx0 hx1
obtain ⟨ey, ey0, ey1⟩ := clamp_axis_ok (g.int_result gt ct).y g.dimensions.2 hy hy0 hy1
unfold Grid.get_cell_coordinate
rw [if_pos rfl]
simp only [ex, ey]
rw [toU32_toNat ex0 ex1, toU32_toNat ey0 ey1]

theorem ivec2_ext {a b : IVec2} (hx : a.x = b.x) (hy : a.y = b.y) : a = b := by
cases a
cases b
simp_all

/-- Placing a cell at `grid_position + get_cell_position c` makes `int_result`
recover `c` exactly, provided the cell pitch is positive on both axes and the
coordinate fits in an i32 (so that the saturating cast is transparent). -/
theorem int_result_round_trip (g : Grid) (gt : Transform) (c : UVec2)
    (hsx : 0 < g.cell_size.x + g.cell_gap.x) (hsy : 0 < g.cell_size.y + g.cell_gap.y)
    (hcx : (c.x : Int) ≤ 2 ^ 31 - 1) (hcy : (c.y : Int) ≤ 2 ^ 31 - 1) :
    g.int_result gt ⟨gt.translation + g.get_cell_position ⟨c⟩⟩ = ⟨(c.x : Int), (c.y : Int)⟩ := by
refine ivec2_ext ?_ ?_
· simp only [Grid.int_result, Grid.get_cell_position, Vec2.as_ivec2_x, Vec2.round_x,
    Vec2.div_x, Vec2.sub_x, Vec3.truncate_x, vec3_add_x, vec3_sub_x, Vec2.add_x, Vec2.mul_x,
    Vec2.extend_x, UVec2.as_vec2_x]
  rw [show (gt.translation.x + ((c.x : ℚ) * (g.cell_size.x + g.cell_gap.x) + g.offset.x)
        - gt.translation.x - g.offset.x)
      = (c.x : ℚ) * (g.cell_gap.x + g.cell_size.x) by ring]
  rw [mul_div_cancel_right₀ _ (ne_of_gt (by linarith : (0 : ℚ) < g.cell_gap.x + g.cell_size.x))]
  rw [roundQ_natCast, toI32sat_intCast]
  omega
· simp only [Grid.int_result, Grid.get_cell_position, Vec2.as_ivec2_y, Vec2.round_y,
    Vec2.div_y, Vec2.sub_y, Vec3.truncate_y, vec3_add_y, vec3_sub_y, Vec2.add_y, Vec2.mul_y,
    Vec2.extend_y, UVec2.as_vec2_y]
  rw [show (gt.translation.y + ((c.y : ℚ) * (g.cell_size.y + g.cell_gap.y) + g.offset.y)
        - gt.translation.y - g.offset.y)
      = (c.y : ℚ) * (g.cell_gap.y + g.cell_size.y) by ring]
  rw [mul_div_cancel_right₀ _ (ne_of_gt (by linarith : (0 : ℚ) < g.cell_gap.y + g.cell_size.y))]
  rw [roundQ_natCast, toI32sat_intCast]
  omega

/-- A cell entity: its `GridCell` and `Transform` components, and the
`AttachedToGrid` relationship when present (`none` models a cell that the
observer queries skip because the component is absent). -/
structure CellEntity where
  cell : GridCell
  transform : Transform
  attached : Option Nat
deriving DecidableEq, Repr

/-- A grid entity: its `Grid` and `Transform` components and its
`AttachedCells` relationship target (the ordered list bevy maintains). -/
structure GridEntity where
  grid : Grid
  transform : Transform
  attachedCells : List Nat
deriving DecidableEq, Repr

/-- The ECS state visible to the observers: grid entities and cell entities,
keyed by entity id.  The two queries of the observers are disjoint
(`Without<GridCell>` on the grid query), which the two separate stores model. -/
structure World where
  grids : List (Nat × GridEntity)
  cells : List (Nat × CellEntity)
deriving DecidableEq, Repr

/-- Resolve a grid entity by id (the `grids_q.get` lookup). -/
def World.lookupGrid (w : World) (e : Nat) : Option GridEntity :=
(w.grids.find? fun p => p.1 == e).map fun p => p.2

/-- Resolve a cell entity by id (the `grid_cells_q.get_mut` lookup). -/
def World.lookupCell (w : World) (e : Nat) : Option CellEntity :=
(w.cells.find? fun p => p.1 == e).map fun p => p.2

/-- Apply a mutation to the cell entity with the given id. -/
def World.mapCell (w : World) (e : Nat) (f : CellEntity → CellEntity) : World :=
{ w with cells := w.cells.map fun p => if p.1 == e then (p.1, f p.2) else p }

/-- Apply a mutation to the grid entity with the given id. -/
def World.mapGrid (w : World) (e : Nat) (f : GridEntity → GridEntity) : World :=
{ w with grids := w.grids.map fun p => if p.1 == e then (p.1, f p.2) else p }

/-- Move a grid entity to a new world translation. -/
def setGridTranslation (w : World) (e : Nat) (t : Vec3) : World :=
w.mapGrid e fun gE => { gE with transform := ⟨t⟩ }

/-- `UpdateCellPosition::observer` (src/lib.rs, lines 180-197): if the cell
and its attached grid resolve, write
`grid_translation.with_z(cell_z) + get_cell_position` into the cell
transform; otherwise do nothing. -/
def updateCellPosition (w : World) (e : Nat) : World :=
match w.lookupCell e with
| none => w
| some ce =>
  match ce.attached with
  | none => w
  | some gid =>
    match w.lookupGrid gid with
    | none => w
    | some gE =>
      let cell_position := gE.grid.get_cell_position ce.cell
      let t := gE.transform.translation.with_z ce.transform.translation.z + cell_position
      w.mapCell e fun c => { c with transform := ⟨t⟩ }

/-- `SnapCellToGrid::observer` (src/lib.rs, lines 203-229): derive the
coordinate with `round_to_nearest = true`, store it, then trigger
`UpdateCellPosition`.  `none` is the aborted (assertion-failed) run; a failed
lookup or a rejected coordinate leaves the world unchanged. -/
def snapCellToGrid (w : World) (e : Nat) : Option World :=
match w.lookupCell e with
| none => some w
| some ce =>
  match ce.attached with
  | none => some w
  | some gid =>
    match w.lookupGrid gid with
    | none => some w
    | some gE =>
      match gE.grid.get_cell_coordinate gE.transform ce.transform true with
      | .error _ => none
      | .ok none => some w
      | .ok (some coordinate) =>
        some (updateCellPosition (w.mapCell e fun c => { c with cell := ⟨coordinate⟩ }) e)

/-- `TrySnapCellToGrid::observer` (src/lib.rs, lines 234-260): as
`snapCellToGrid` but with `round_to_nearest = false`. -/
def trySnapCellToGrid (w : World) (e : Nat) : Option World :=
match w.lookupCell e with
| none => some w
| some ce =>
  match ce.attached with
  | none => some w
  | some gid =>
    match w.lookupGrid gid with
    | none => some w
    | some gE =>
      match gE.grid.get_cell_coordinate gE.transform ce.transform false with
      | .error _ => none
      | .ok none => some w
      | .ok (some coordinate) =>
        some (updateCellPosition (w.mapCell e fun c => { c with cell := ⟨coordinate⟩ }) e)

/-- `Grid::on_changed` (src/lib.rs, lines 94-100), restricted to one grid
whose transform changed: trigger `UpdateCellPosition` for every entity in its
`AttachedCells` list, in order. -/
def onGridMoved (w : World) (gid : Nat) : World :=
match w.lookupGrid gid with
| none => w
| some gE => gE.attachedCells.foldl updateCellPosition w

/-- The transform at the world origin. -/
def originT : Transform := ⟨⟨0, 0, 0⟩⟩

/-- A unit-pitch 3 by 3 grid. -/
def unitGrid33 : Grid := ⟨⟨1, 1⟩, ⟨0, 0⟩, ⟨0, 0⟩, (some 3, some 3)⟩

/-- A unit-pitch grid whose x dimension does not fit in an i32. -/
def hugeGrid : Grid := ⟨⟨1, 1⟩, ⟨0, 0⟩, ⟨0, 0⟩, (some (2 ^ 31), some (2 ^ 31))⟩

/-- C1 (amended): for a grid with bounded dimensions that both fit in an i32,
positive cell pitch on both axes, and a coordinate c inside the bounds,
placing a cell at the world position `grid_position + get_cell_position c`
and deriving the coordinate back under CLAMP yields exactly c. -/
theorem c1_round_trip_clamp (g : Grid) (gt : Transform) (dw dh : Nat) (c : UVec2)
    (hdim : g.dimensions = (some dw, some dh))
    (hw : dw ≤ 2 ^ 31 - 1) (hh : dh ≤ 2 ^ 31 - 1)
    (hsx : 0 < g.cell_size.x + g.cell_gap.x) (hsy : 0 < g.cell_size.y + g.cell_gap.y)
    (hcx : c.x < dw) (hcy : c.y < dh) :
    g.get_cell_coordinate gt ⟨gt.translation + g.get_cell_position ⟨c⟩⟩ true
      = .ok (some c) := by
have hfx : fitsI32 g.dimensions.1 = true := by
  rw [hdim]
  simp only [fitsI32, Option.all, decide_eq_true_eq]
  exact hw
have hfy : fitsI32 g.dimensions.2 = true := by
  rw [hdim]
  simp only [fitsI32, Option.all, decide_eq_true_eq]
  exact hh
have hint := int_result_round_trip g gt c hsx hsy (by omega) (by omega)
have hchar := clamp_characterization g gt ⟨gt.translation + g.get_cell_position ⟨c⟩⟩ hfx hfy
rw [hint, hdim] at hchar
rw [hchar]
have ex : (clampSpecAxis ((c.x : Int)) ((some dw, some dh) : Option Nat × Option Nat).1).toNat
    = c.x := by
  simp only [clampSpecAxis]
  omega
have ey : (clampSpecAxis ((c.y : Int)) ((some dw, some dh) : Option Nat × Option Nat).2).toNat
    = c.y := by
  simp only [clampSpecAxis]
  omega
rw [ex, ey]

/-- C1 counterexample: the claim as stated fails for a grid whose bounded
dimensions exceed the i32 range, because the clamp assertion aborts instead
of returning the coordinate. -/
theorem c1_counterexample :
    hugeGrid.get_cell_coordinate originT
        ⟨originT.translation + hugeGrid.get_cell_position ⟨⟨0, 0⟩⟩⟩ true = .error ()
      ∧ (Except.error () : Except Unit (Option UVec2)) ≠ .ok (some ⟨0, 0⟩) := by
refine ⟨by with_unfolding_all rfl, fun hcon => Except.noConfusion hcon⟩

/-- C1 witness: the round trip at a concrete in-bounds coordinate. -/
theorem c1_witness :
    (unitGrid33.dimensions = (some 3, some 3) ∧ (3 : Nat) ≤ 2 ^ 31 - 1
        ∧ 0 < unitGrid33.cell_size.x + unitGrid33.cell_gap.x
        ∧ 0 < unitGrid33.cell_size.y + unitGrid33.cell_gap.y
        ∧ (2 : Nat) < 3 ∧ (1 : Nat) < 3)
      ∧ unitGrid33.get_cell_coordinate originT
          ⟨originT.translation + unitGrid33.get_cell_position ⟨⟨2, 1⟩⟩⟩ true
        = .ok (some ⟨2, 1⟩) :=
⟨⟨rfl, by norm_num, by norm_num [unitGrid33], by norm_num [unitGrid33], by norm_num, by norm_num⟩,
  c1_round_trip_clamp unitGrid33 originT 3 3 ⟨2, 1⟩ rfl (by norm_num) (by norm_num)
    (by norm_num [unitGrid33]) (by norm_num [unitGrid33]) (by norm_num) (by norm_num)⟩

/-- A unit-pitch grid bounded by 3 on x and unbounded on y. -/
def grid3x : Grid := ⟨⟨1, 1⟩, ⟨0, 0⟩, ⟨0, 0⟩, (some 3, none)⟩

/-- A unit-pitch fully unbounded grid. -/
def gridFree : Grid := ⟨⟨1, 1⟩, ⟨0, 0⟩, ⟨0, 0⟩, (none, none)⟩

/-- A unit-pitch grid whose x dimension is exactly 2 to the 31, the smallest
u32 whose cast to i32 is negative. -/
def grid31 : Grid := ⟨⟨1, 1⟩, ⟨0, 0⟩, ⟨0, 0⟩, (some (2 ^ 31), none)⟩

/-- C3 (amended): under CLAMP, provided every declared dimension fits in an
i32, a coordinate is always returned, each axis clamped into [0, dimension]
when bounded and floored at 0 when unbounded. -/
theorem c3_clamp_policy (g : Grid) (gt ct : Transform)
    (hx : fitsI32 g.dimensions.1 = true) (hy : fitsI32 g.dimensions.2 = true) :
    ∃ c : UVec2, g.get_cell_coordinate gt ct true = .ok (some c)
      ∧ (c.x : Int) = clampSpecAxis (g.int_result gt ct).x g.dimensions.1
      ∧ (c.y : Int) = clampSpecAxis (g.int_result gt ct).y g.dimensions.2 := by
obtain ⟨⟨hx0, hx1⟩, hy0, hy1⟩ := int_result_bounds g gt ct
obtain ⟨-, ex0, ex1⟩ := clamp_axis_ok (g.int_result gt ct).x g.dimensions.1 hx hx0 hx1
obtain ⟨-, ey0, ey1⟩ := clamp_axis_ok (g.int_result gt ct).y g.dimensions.2 hy hy0 hy1
refine ⟨_, clamp_characterization g gt ct hx hy, ?_, ?_⟩ <;> simp <;> omega

/-- C3 counterexample: for a grid with a declared dimension of 2 to the 31
the CLAMP derivation aborts on the clamp assertion instead of returning a
coordinate, refuting the unconditional never-fails claim. -/
theorem c3_counterexample :
    grid31.get_cell_coordinate originT originT true = .error ()
      ∧ ∀ c : UVec2, (Except.error () : Except Unit (Option UVec2)) ≠ .ok (some c) :=
⟨by with_unfolding_all rfl, fun _ hcon => Except.noConfusion hcon⟩

/-- C3 witness: the two saturation examples of the claim, raw x = 10 against
dimensions (some 3, none) clamps to 3, and raw x = -5 against (none, none)
floors to 0. -/
theorem c3_witness :
    (fitsI32 grid3x.dimensions.1 = true ∧ fitsI32 grid3x.dimensions.2 = true
        ∧ ∃ c : UVec2, grid3x.get_cell_coordinate originT ⟨⟨10, 0, 0⟩⟩ true = .ok (some c)
          ∧ (c.x : Int) = clampSpecAxis (grid3x.int_result originT ⟨⟨10, 0, 0⟩⟩).x
              grid3x.dimensions.1
          ∧ (c.y : Int) = clampSpecAxis (grid3x.int_result originT ⟨⟨10, 0, 0⟩⟩).y
              grid3x.dimensions.2)
      ∧ (fitsI32 gridFree.dimensions.1 = true
        ∧ ∃ c : UVec2, gridFree.get_cell_coordinate originT ⟨⟨-5, 0, 0⟩⟩ true = .ok (some c)
          ∧ (c.x : Int) = clampSpecAxis (gridFree.int_result originT ⟨⟨-5, 0, 0⟩⟩).x
              gridFree.dimensions.1
          ∧ (c.y : Int) = clampSpecAxis (gridFree.int_result originT ⟨⟨-5, 0, 0⟩⟩).y
              gridFree.dimensions.2) :=
⟨⟨rfl, rfl, c3_clamp_policy grid3x originT ⟨⟨10, 0, 0⟩⟩ rfl rfl⟩,
  ⟨rfl, c3_clamp_policy gridFree originT ⟨⟨-5, 0, 0⟩⟩ rfl rfl⟩⟩

/-- C9: under CLAMP the derivation never aborts when every declared dimension
is at most i32::MAX, and for the grid whose x dimension is 2 to the 31 it
aborts (the u32-to-i32 cast of the dimension is negative, so the clamp
assertion min <= max fails). -/
theorem c9_clamp_dimension_overflow :
    (∀ (g : Grid) (gt ct : Transform),
        fitsI32 g.dimensions.1 = true → fitsI32 g.dimensions.2 = true →
          (g.get_cell_coordinate gt ct true).isOk = true)
      ∧ grid31.get_cell_coordinate originT originT true = .error () := by
constructor
· intro g gt ct hx hy
  rw [clamp_characterization g gt ct hx hy]
  rfl
· with_unfolding_all rfl

/-- C9 witness: the no-abort half applied at a concrete grid with fitting
dimensions. -/
theorem c9_witness :
    (fitsI32 unitGrid33.dimensions.1 = true ∧ fitsI32 unitGrid33.dimensions.2 = true)
      ∧ (unitGrid33.get_cell_coordinate originT originT true).isOk = true :=
⟨⟨rfl, rfl⟩, c9_clamp_dimension_overflow.1 unitGrid33 originT originT rfl rfl⟩

/-- C8: for every dimension bound d that fits in an i32 there is an input on
which CLAMP returns a coordinate whose x axis equals d, and that coordinate
is rejected by the strict validity predicate used by REJECT. -/
theorem c8_clamp_exceeds_reject_bound (d : Nat) (hd : d ≤ 2 ^ 31 - 1) :
    ∃ (g : Grid) (gt ct : Transform), g.dimensions = (some d, none)
      ∧ g.get_cell_coordinate gt ct true = .ok (some ⟨d, 0⟩)
      ∧ g.is_coordinate_valid ⟨d, 0⟩ = false := by
refine ⟨⟨⟨1, 1⟩, ⟨0, 0⟩, ⟨0, 0⟩, (some d, none)⟩, originT, ⟨⟨(2 ^ 31 : ℚ), 0, 0⟩⟩, rfl, ?_, ?_⟩
· have hfx : fitsI32 (some d) = true := by
    simp only [fitsI32, Option.all, decide_eq_true_eq]
    exact hd
  have hint : Grid.int_result ⟨⟨1, 1⟩, ⟨0, 0⟩, ⟨0, 0⟩, (some d, none)⟩ originT
      ⟨⟨(2 ^ 31 : ℚ), 0, 0⟩⟩ = ⟨2 ^ 31 - 1, 0⟩ := by
    refine ivec2_ext ?_ ?_
    · simp only [Grid.int_result, Vec2.as_ivec2_x, Vec2.round_x, Vec2.div_x, Vec2.sub_x,
        Vec3.truncate_x, vec3_sub_x]
      norm_num [originT]
      rw [show ((2147483648 : ℚ)) = (((2147483648 : Int) : ℚ)) by norm_num, roundQ_intCast,
        toI32sat_intCast]
      omega
    · simp only [Grid.int_result, Vec2.as_ivec2_y, Vec2.round_y, Vec2.div_y, Vec2.sub_y,
        Vec3.truncate_y, vec3_sub_y]
      norm_num [originT]
      rw [show ((0 : ℚ)) = (((0 : Int) : ℚ)) by norm_num, roundQ_intCast, toI32sat_intCast]
      omega
  have hchar := clamp_characterization ⟨⟨1, 1⟩, ⟨0, 0⟩, ⟨0, 0⟩, (some d, none)⟩ originT
    ⟨⟨(2 ^ 31 : ℚ), 0, 0⟩⟩ hfx rfl
  rw [hint] at hchar
  rw [hchar]
  have ex : (clampSpecAxis (2 ^ 31 - 1) (some d)).toNat = d := by
    simp only [clampSpecAxis]
    omega
  have ey : (clampSpecAxis 0 (none : Option Nat)).toNat = 0 := by
    simp only [clampSpecAxis]
    omega
  rw [ex, ey]
· simp [Grid.is_coordinate_valid, Option.all]

/-- C8 witness: the clamp-past-the-bound coordinate at d = 3. -/
theorem c8_witness :
    (3 : Nat) ≤ 2 ^ 31 - 1
      ∧ ∃ (g : Grid) (gt ct : Transform), g.dimensions = (some 3, none)
        ∧ g.get_cell_coordinate gt ct true = .ok (some ⟨3, 0⟩)
        ∧ g.is_coordinate_valid ⟨3, 0⟩ = false :=
⟨by norm_num, c8_clamp_exceeds_reject_bound 3 (by norm_num)⟩

/-- C2: under REJECT the derivation returns no coordinate exactly when a
rounded raw axis is negative or at or above a declared bound, and otherwise
returns the raw rounded coordinate unchanged; in particular on the 3 by 3
grid raw (3, 1) is rejected and raw (2, 1) is returned as (2, 1). -/
theorem c2_reject_policy :
    (∀ (g : Grid) (gt ct : Transform),
        (g.get_cell_coordinate gt ct false = .ok none ↔ reject_condition g gt ct = true)
          ∧ (reject_condition g gt ct = false →
              g.get_cell_coordinate gt ct false = .ok (some (g.int_result gt ct).as_uvec2)
                ∧ (((g.int_result gt ct).as_uvec2.x : Int) = (g.int_result gt ct).x
                  ∧ ((g.int_result gt ct).as_uvec2.y : Int) = (g.int_result gt ct).y)))
      ∧ unitGrid33.get_cell_coordinate originT ⟨⟨3, 1, 0⟩⟩ false = .ok none
      ∧ unitGrid33.get_cell_coordinate originT ⟨⟨2, 1, 0⟩⟩ false = .ok (some ⟨2, 1⟩) :=
⟨fun g gt ct => reject_characterization g gt ct,
  by with_unfolding_all rfl, by with_unfolding_all rfl⟩

/-- C2 witness: the general characterization applied on the unbounded grid at
a position whose raw coordinate is (1, 2). -/
theorem c2_witness :
    reject_condition gridFree originT ⟨⟨1, 2, 0⟩⟩ = false
      ∧ (gridFree.get_cell_coordinate originT ⟨⟨1, 2, 0⟩⟩ false
            = .ok (some (gridFree.int_result originT ⟨⟨1, 2, 0⟩⟩).as_uvec2)
          ∧ (((gridFree.int_result originT ⟨⟨1, 2, 0⟩⟩).as_uvec2.x : Int)
              = (gridFree.int_result originT ⟨⟨1, 2, 0⟩⟩).x
            ∧ ((gridFree.int_result originT ⟨⟨1, 2, 0⟩⟩).as_uvec2.y : Int)
              = (gridFree.int_result originT ⟨⟨1, 2, 0⟩⟩).y)) :=
⟨by with_unfolding_all rfl,
  (c2_reject_policy.1 gridFree originT ⟨⟨1, 2, 0⟩⟩).2 (by with_unfolding_all rfl)⟩

theorem toI32wrap_le (d : Nat) : toI32wrap d ≤ 2 ^ 31 - 1 := by
unfold toI32wrap
split <;> omega

/-- Whatever `clampAxis` returns without aborting is non-negative, below
2 to the 32, and zero when the raw value was negative. -/
theorem clampAxis_ok_inv (v : Int) (o : Option Nat) (a : Int) (hv1 : v ≤ 2 ^ 31 - 1)
    (h : clampAxis v o = .ok a) : 0 ≤ a ∧ a < 2 ^ 32 ∧ (v < 0 → a = 0) := by
rcases o with _ | d
· simp only [clampAxis, Except.ok.injEq] at h
  omega
· have hwrap := toI32wrap_le d
  simp only [clampAxis, clampI32] at h
  split at h
  · simp only [Except.ok.injEq] at h
    omega
  · exact Except.noConfusion h

/-- C10: every coordinate the derivation can return (either policy) has both
axes representable as a u32 (in particular non-negative); under REJECT a
returned coordinate certifies both raw axes non-negative, and under CLAMP a
negative raw axis is floored to exactly 0.  Together with the `Nat`-valued
`GridCell.coordinate` field this means no operation ever stores a negative
coordinate. -/
theorem c10_coordinates_unsigned (g : Grid) (gt ct : Transform) (rtn : Bool) (c : UVec2)
    (h : g.get_cell_coordinate gt ct rtn = .ok (some c)) :
    (c.x < 2 ^ 32 ∧ c.y < 2 ^ 32)
      ∧ (rtn = false → 0 ≤ (g.int_result gt ct).x ∧ 0 ≤ (g.int_result gt ct).y)
      ∧ (rtn = true →
          ((g.int_result gt ct).x < 0 → c.x = 0) ∧ ((g.int_result gt ct).y < 0 → c.y = 0)) := by
obtain ⟨⟨hx0, hx1⟩, hy0, hy1⟩ := int_result_bounds g gt ct
cases rtn
· unfold Grid.get_cell_coordinate at h
  simp only [Bool.false_eq_true, if_false] at h
  split at h
  · next hguard =>
    simp only [Except.ok.injEq, Option.some.injEq] at h
    subst h
    have hg := (Bool.and_eq_true _ _).mp ((Bool.and_eq_true _ _).mp hguard).1
    refine ⟨⟨toU32_lt _, toU32_lt _⟩, ?_, ?_⟩
    · exact fun _ => ⟨by simpa using hg.1, by simpa using hg.2⟩
    · exact fun hcon => Bool.noConfusion hcon
  · simp at h
· unfold Grid.get_cell_coordinate at h
  rw [if_pos rfl] at h
  rcases hax : clampAxis (g.int_result gt ct).x g.dimensions.1 with e | a <;> rw [hax] at h
  · exact Except.noConfusion h
  rcases hay : clampAxis (g.int_result gt ct).y g.dimensions.2 with e | b <;> rw [hay] at h
  · exact Except.noConfusion h
  simp only [Except.ok.injEq, Option.some.injEq] at h
  subst h
  obtain ⟨ha0, ha1, ha2⟩ := clampAxis_ok_inv _ _ _ hx1 hax
  obtain ⟨hb0, hb1, hb2⟩ := clampAxis_ok_inv _ _ _ hy1 hay
  refine ⟨⟨toU32_lt _, toU32_lt _⟩, fun hcon => Bool.noConfusion hcon, fun _ => ⟨?_, ?_⟩⟩
  · intro hneg
    simp only [ha2 hneg]
    unfold toU32
    omega
  · intro hneg
    simp only [hb2 hneg]
    unfold toU32
    omega

/-- C10 witness: the CLAMP derivation at raw (-5, 0) returns (0, 0), which is
within the u32 range and floors the negative axis to 0. -/
theorem c10_witness :
    gridFree.get_cell_coordinate originT ⟨⟨-5, 0, 0⟩⟩ true = .ok (some ⟨0, 0⟩)
      ∧ (((UVec2.mk 0 0).x < 2 ^ 32 ∧ (UVec2.mk 0 0).y < 2 ^ 32)
        ∧ ((true : Bool) = false → 0 ≤ (gridFree.int_result originT ⟨⟨-5, 0, 0⟩⟩).x
            ∧ 0 ≤ (gridFree.int_result originT ⟨⟨-5, 0, 0⟩⟩).y)
        ∧ ((true : Bool) = true →
            ((gridFree.int_result originT ⟨⟨-5, 0, 0⟩⟩).x < 0 → (UVec2.mk 0 0).x = 0)
              ∧ ((gridFree.int_result originT ⟨⟨-5, 0, 0⟩⟩).y < 0
                → (UVec2.mk 0 0).y = 0))) := by
have h : gridFree.get_cell_coordinate originT ⟨⟨-5, 0, 0⟩⟩ true = .ok (some ⟨0, 0⟩) := by
  with_unfolding_all rfl
exact ⟨h, c10_coordinates_unsigned gridFree originT ⟨⟨-5, 0, 0⟩⟩ true ⟨0, 0⟩ h⟩

/-- Mapping the entry with one key commutes with keyed search. -/
theorem find?_map_entry {α : Type} (l : List (Nat × α)) (e c : Nat) (f : α → α) :
    (((l.map fun p => if p.1 == e then (p.1, f p.2) else p).find? fun p => p.1 == c).map
        fun p => p.2)
      = if c = e then ((l.find? fun p => p.1 == c).map fun p => f p.2)
        else (l.find? fun p => p.1 == c).map fun p => p.2 := by
rw [List.find?_map]
have hpred : ((fun p => p.1 == c) ∘ fun p : Nat × α =>
    if (p.1 == e) = true then (p.1, f p.2) else p) = fun p : Nat × α => p.1 == c := by
  funext p
  by_cases h : p.1 = e <;> simp [Function.comp, h]
rw [hpred]
rcases hfind : l.find? (fun p => p.1 == c) with _ | q
· simp [hfind]
· have hq : q.1 = c := by simpa using List.find?_some hfind
  by_cases hce : c = e
  · rw [if_pos hce]
    subst hce
    simp [hfind, hq]
  · rw [if_neg hce]
    have hqe : ¬q.1 = e := by omega
    simp [hfind, hqe]

theorem lookupCell_mapCell (w : World) (e c : Nat) (f : CellEntity → CellEntity) :
    (w.mapCell e f).lookupCell c
      = if c = e then (w.lookupCell c).map f else w.lookupCell c := by
unfold World.mapCell World.lookupCell
rw [find?_map_entry]
split <;> simp [Option.map_map, Function.comp_def]

theorem lookupGrid_mapGrid (w : World) (e c : Nat) (f : GridEntity → GridEntity) :
    (w.mapGrid e f).lookupGrid c
      = if c = e then (w.lookupGrid c).map f else w.lookupGrid c := by
unfold World.mapGrid World.lookupGrid
rw [find?_map_entry]
split <;> simp [Option.map_map, Function.comp_def]

theorem lookupGrid_mapCell (w : World) (e c : Nat) (f : CellEntity → CellEntity) :
    (w.mapCell e f).lookupGrid c = w.lookupGrid c := rfl

theorem lookupCell_mapGrid (w : World) (e c : Nat) (f : GridEntity → GridEntity) :
    (w.mapGrid e f).lookupCell c = w.lookupCell c := rfl

theorem mapCell_mapCell (w : World) (e : Nat) (f g : CellEntity → CellEntity) :
    (w.mapCell e f).mapCell e g = w.mapCell e fun x => g (f x) := by
unfold World.mapCell
simp only [List.map_map]
congr 1
apply List.map_congr_left
intro p _
by_cases h : p.1 = e <;> simp [Function.comp, h]

theorem uCP_lookupGrid (w : World) (e i : Nat) :
    (updateCellPosition w e).lookupGrid i = w.lookupGrid i := by
unfold updateCellPosition
rcases hce : w.lookupCell e with _ | ce <;> simp only [hce]
rcases hat : ce.attached with _ | gid <;> simp only [hat]
rcases hg : w.lookupGrid gid with _ | gE <;> simp only [hg]
exact lookupGrid_mapCell _ _ _ _

theorem uCP_lookupCell_ne (w : World) (e c : Nat) (h : ¬c = e) :
    (updateCellPosition w e).lookupCell c = w.lookupCell c := by
unfold updateCellPosition
rcases hce : w.lookupCell e with _ | ce <;> simp only [hce]
rcases hat : ce.attached with _ | gid <;> simp only [hat]
rcases hg : w.lookupGrid gid with _ | gE <;> simp only [hg]
rw [lookupCell_mapCell, if_neg h]

/-- The successful branch of the position-sync observer. -/
theorem uCP_success (w : World) (e : Nat) (ce : CellEntity) (gid : Nat) (gE : GridEntity)
    (h1 : w.lookupCell e = some ce) (h2 : ce.attached = some gid)
    (h3 : w.lookupGrid gid = some gE) :
    updateCellPosition w e = w.mapCell e fun c =>
      { c with transform := ⟨gE.transform.translation.with_z ce.transform.translation.z
          + gE.grid.get_cell_position ce.cell⟩ } := by
unfold updateCellPosition
simp only [h1, h2, h3]

/-- The no-op branches of the position-sync observer. -/
theorem uCP_noop (w : World) (e : Nat)
    (h : w.lookupCell e = none
      ∨ ∃ ce, w.lookupCell e = some ce ∧ (ce.attached = none
          ∨ ∃ gid, ce.attached = some gid ∧ w.lookupGrid gid = none)) :
    updateCellPosition w e = w := by
unfold updateCellPosition
rcases h with h | ⟨ce, hce, h⟩
· simp only [h]
· simp only [hce]
  rcases h with h | ⟨gid, hat, hg⟩
  · simp only [h]
  · simp only [hat, hg]

/-- C6: running the position sync twice in a row writes exactly the same
world state as running it once; the second pass recomputes the identical
translation because the coordinate, the grid and the preserved z component
are unchanged. -/
theorem c6_position_sync_idempotent (w : World) (e : Nat) :
    updateCellPosition (updateCellPosition w e) e = updateCellPosition w e := by
rcases hce : w.lookupCell e with _ | ce
· rw [uCP_noop w e (Or.inl hce), uCP_noop w e (Or.inl hce)]
rcases hat : ce.attached with _ | gid
· rw [uCP_noop w e (Or.inr ⟨ce, hce, Or.inl hat⟩), uCP_noop w e (Or.inr ⟨ce, hce, Or.inl hat⟩)]
rcases hg : w.lookupGrid gid with _ | gE
· rw [uCP_noop w e (Or.inr ⟨ce, hce, Or.inr ⟨gid, hat, hg⟩⟩),
    uCP_noop w e (Or.inr ⟨ce, hce, Or.inr ⟨gid, hat, hg⟩⟩)]
have h1 := uCP_success w e ce gid gE hce hat hg
have hce2 : (updateCellPosition w e).lookupCell e
    = some { ce with transform := ⟨gE.transform.translation.with_z ce.transform.translation.z
        + gE.grid.get_cell_position ce.cell⟩ } := by
  rw [h1, lookupCell_mapCell, if_pos rfl, hce]
  rfl
have hg2 : (updateCellPosition w e).lookupGrid gid = some gE := by
  rw [uCP_lookupGrid]
  exact hg
have h2 := uCP_success (updateCellPosition w e) e _ gid gE hce2 hat hg2
rw [h2, h1, mapCell_mapCell]
have hz : (gE.transform.translation.with_z ce.transform.translation.z
      + gE.grid.get_cell_position ce.cell).z = ce.transform.translation.z := by
  simp [Grid.get_cell_position]
rw [hz]

/-- A cell has no resolvable attached grid: it does not exist, carries no
attachment, or its attachment target is not a resolvable grid. -/
def no_resolvable_grid (w : World) (e : Nat) : Bool :=
match w.lookupCell e with
| none => true
| some ce =>
  match ce.attached with
  | none => true
  | some gid => (w.lookupGrid gid).isNone

/-- C7: on a cell without a resolvable attached grid, the position sync and
both snap observers leave the world untouched and signal no error. -/
theorem c7_orphan_noop (w : World) (e : Nat) (h : no_resolvable_grid w e = true) :
    updateCellPosition w e = w
      ∧ snapCellToGrid w e = some w ∧ trySnapCellToGrid w e = some w := by
rcases hce : w.lookupCell e with _ | ce
· refine ⟨uCP_noop w e (Or.inl hce), ?_, ?_⟩
  · unfold snapCellToGrid
    simp only [hce]
  · unfold trySnapCellToGrid
    simp only [hce]
· unfold no_resolvable_grid at h
  simp only [hce] at h
  rcases hat : ce.attached with _ | gid
  · refine ⟨uCP_noop w e (Or.inr ⟨ce, hce, Or.inl hat⟩), ?_, ?_⟩
    · unfold snapCellToGrid
      simp only [hce, hat]
    · unfold trySnapCellToGrid
      simp only [hce, hat]
  · simp only [hat] at h
    have hg : w.lookupGrid gid = none := by
      rcases hgg : w.lookupGrid gid with _ | gE
      · rfl
      · rw [hgg] at h
        exact absurd h (by simp)
    refine ⟨uCP_noop w e (Or.inr ⟨ce, hce, Or.inr ⟨gid, hat, hg⟩⟩), ?_, ?_⟩
    · unfold snapCellToGrid
      simp only [hce, hat, hg]
    · unfold trySnapCellToGrid
      simp only [hce, hat, hg]

/-- A world holding a single cell with no attachment and no grids at all. -/
def orphanWorld : World := ⟨[], [(1, ⟨⟨⟨0, 0⟩⟩, ⟨⟨0, 0, 0⟩⟩, none⟩)]⟩

/-- C7 witness: the no-op on the concrete orphan world. -/
theorem c7_witness :
    no_resolvable_grid orphanWorld 1 = true
      ∧ (updateCellPosition orphanWorld 1 = orphanWorld
        ∧ snapCellToGrid orphanWorld 1 = some orphanWorld
        ∧ trySnapCellToGrid orphanWorld 1 = some orphanWorld) :=
⟨rfl, c7_orphan_noop orphanWorld 1 rfl⟩

/-- The grid of the example scenario of the specification. -/
def exampleGrid : Grid := ⟨⟨32, 32⟩, ⟨2, 2⟩, ⟨0, 0⟩, (none, none)⟩

/-- The example world: that grid at the origin with one attached cell at
world position (70, 0, 5). -/
def exampleWorld : World :=
⟨[(0, ⟨exampleGrid, originT, [1]⟩)], [(1, ⟨⟨⟨0, 0⟩⟩, ⟨⟨70, 0, 5⟩⟩, some 0⟩)]⟩

/-- C5: in the example scenario the local position is (70, 0), the rounded
raw coordinate is (2, 0), and the CLAMP snap stores coordinate (2, 0) and
then syncs the cell world position to (68, 0, 5), preserving z = 5. -/
theorem c5_example_scenario :
    ((⟨⟨70, 0, 5⟩⟩ : Transform).translation - originT.translation).truncate - exampleGrid.offset
        = ⟨70, 0⟩
      ∧ exampleGrid.int_result originT ⟨⟨70, 0, 5⟩⟩ = ⟨2, 0⟩
      ∧ exampleGrid.get_cell_coordinate originT ⟨⟨70, 0, 5⟩⟩ true = .ok (some ⟨2, 0⟩)
      ∧ snapCellToGrid exampleWorld 1
        = some ⟨[(0, ⟨exampleGrid, originT, [1]⟩)],
            [(1, ⟨⟨⟨2, 0⟩⟩, ⟨⟨68, 0, 5⟩⟩, some 0⟩)]⟩ := by
refine ⟨by with_unfolding_all rfl, by with_unfolding_all rfl, by with_unfolding_all rfl,
  by with_unfolding_all rfl⟩

theorem foldl_uCP_lookupGrid (l : List Nat) (w : World) (i : Nat) :
    (l.foldl updateCellPosition w).lookupGrid i = w.lookupGrid i := by
induction l generalizing w with
| nil => rfl
| cons a t ih => rw [List.foldl_cons, ih, uCP_lookupGrid]

theorem foldl_uCP_lookupCell_notmem (l : List Nat) (w : World) (c : Nat) (h : ¬c ∈ l) :
    (l.foldl updateCellPosition w).lookupCell c = w.lookupCell c := by
induction l generalizing w with
| nil => rfl
| cons a t ih =>
  rw [List.foldl_cons, ih _ fun hc => h (List.mem_cons_of_mem a hc),
    uCP_lookupCell_ne _ _ _ fun hc => h (by rw [hc]; exact List.mem_cons_self a t)]

/-- Syncing every cell of a duplicate-free attachment list writes each listed
cell transform to the grid-relative position, preserving its coordinate,
attachment and z component. -/
theorem foldl_uCP_sync (l : List Nat) : ∀ (w : World) (gid : Nat) (gE : GridEntity),
    w.lookupGrid gid = some gE → l.Nodup →
    (∀ c ∈ l, ∃ ce, w.lookupCell c = some ce ∧ ce.attached = some gid) →
    ∀ c ∈ l, ∃ ce, w.lookupCell c = some ce
      ∧ (l.foldl updateCellPosition w).lookupCell c
        = some { ce with transform := ⟨gE.transform.translation.with_z
            ce.transform.translation.z + gE.grid.get_cell_position ce.cell⟩ } := by
induction l with
| nil =>
  intro w gid gE hg hnd hall c hc
  exact absurd hc (List.not_mem_nil c)
| cons a t ih =>
  intro w gid gE hg hnd hall c hc
  have hnda : ¬a ∈ t := (List.nodup_cons.mp hnd).1
  have hndt : t.Nodup := (List.nodup_cons.mp hnd).2
  obtain ⟨cea, hcea, hata⟩ := hall a (List.mem_cons_self a t)
  have hupd := uCP_success w a cea gid gE hcea hata hg
  have hlookA : (updateCellPosition w a).lookupCell a
      = some { cea with transform := ⟨gE.transform.translation.with_z
          cea.transform.translation.z + gE.grid.get_cell_position cea.cell⟩ } := by
    rw [hupd, lookupCell_mapCell, if_pos rfl, hcea]
    rfl
  rcases List.mem_cons.mp hc with rfl | hct
  · refine ⟨cea, hcea, ?_⟩
    rw [List.foldl_cons, foldl_uCP_lookupCell_notmem t _ c hnda, hlookA]
  · have hca : ¬c = a := fun hh => hnda (hh ▸ hct)
    have hg2 : (updateCellPosition w a).lookupGrid gid = some gE := by
      rw [uCP_lookupGrid]
      exact hg
    have hall2 : ∀ d ∈ t, ∃ ce, (updateCellPosition w a).lookupCell d = some ce
        ∧ ce.attached = some gid := by
      intro d hd
      obtain ⟨ced, hced, hatd⟩ := hall d (List.mem_cons_of_mem a hd)
      have hda : ¬d = a := fun hh => hnda (hh ▸ hd)
      exact ⟨ced, by rw [uCP_lookupCell_ne _ _ _ hda]; exact hced, hatd⟩
    obtain ⟨ce2, hce2, hfold⟩ := ih (updateCellPosition w a) gid gE hg2 hndt hall2 c hct
    rw [uCP_lookupCell_ne _ _ _ hca] at hce2
    refine ⟨ce2, hce2, ?_⟩
    rw [List.foldl_cons]
    exact hfold

/-- C4 (amended): moving a grid and running the grid-moved handler shifts
every attached, previously in-sync cell by the x and y components of the
translation difference, with the z component of each cell preserved (so the
shift is exactly the difference whenever the z component of the grid
translation is unchanged), and leaves the stored coordinates untouched. -/
theorem c4_grid_move_propagation (w : World) (gid : Nat) (gE : GridEntity) (pn : Vec3)
    (hg : w.lookupGrid gid = some gE)
    (hnd : gE.attachedCells.Nodup)
    (hsync : ∀ c ∈ gE.attachedCells, ∃ ce, w.lookupCell c = some ce
        ∧ ce.attached = some gid
        ∧ ce.transform.translation = gE.transform.translation.with_z
            ce.transform.translation.z + gE.grid.get_cell_position ce.cell) :
    ∀ c ∈ gE.attachedCells, ∃ ce ce2, w.lookupCell c = some ce
      ∧ (onGridMoved (setGridTranslation w gid pn) gid).lookupCell c = some ce2
      ∧ ce2.cell = ce.cell
      ∧ ce2.transform.translation = ce.transform.translation
          + ⟨pn.x - gE.transform.translation.x, pn.y - gE.transform.translation.y, 0⟩ := by
intro c hc
have hg2 : (setGridTranslation w gid pn).lookupGrid gid
    = some { gE with transform := ⟨pn⟩ } := by
  unfold setGridTranslation
  rw [lookupGrid_mapGrid, if_pos rfl, hg]
  rfl
have hcells : ∀ d, (setGridTranslation w gid pn).lookupCell d = w.lookupCell d :=
  fun d => rfl
have hall : ∀ d ∈ gE.attachedCells,
    ∃ ce, (setGridTranslation w gid pn).lookupCell d = some ce ∧ ce.attached = some gid := by
  intro d hd
  obtain ⟨ce, hce, hat, -⟩ := hsync d hd
  exact ⟨ce, by rw [hcells]; exact hce, hat⟩
obtain ⟨ce, hce, hlook⟩ := foldl_uCP_sync gE.attachedCells (setGridTranslation w gid pn) gid
  { gE with transform := ⟨pn⟩ } hg2 hnd hall c hc
rw [hcells] at hce
obtain ⟨ce0, hce0, hat0, htrans⟩ := hsync c hc
have hee : ce = ce0 := by
  rw [hce0] at hce
  exact (Option.some_inj.mp hce).symm
subst hee
refine ⟨ce, { ce with transform := ⟨pn.with_z ce.transform.translation.z
    + gE.grid.get_cell_position ce.cell⟩ }, hce0, ?_, rfl, ?_⟩
· unfold onGridMoved
  simp only [hg2]
  exact hlook
· have hx : ce.transform.translation.x
      = gE.transform.translation.x + (gE.grid.get_cell_position ce.cell).x := by
    rw [htrans]
    simp
  have hyy : ce.transform.translation.y
      = gE.transform.translation.y + (gE.grid.get_cell_position ce.cell).y := by
    rw [htrans]
    simp
  refine vec3_ext ?_ ?_ ?_
  · simp only [vec3_add_x, Vec3.with_z_x, hx]
    ring
  · simp only [vec3_add_y, Vec3.with_z_y, hyy]
    ring
  · simp only [Vec3.add_z, Vec3.with_z_z, Grid.get_cell_position, Vec2.extend_z]

/-- A world with one grid at the origin and one in-sync attached cell, used
to exhibit the z behaviour of the grid-moved handler. -/
def zMoveWorld : World :=
⟨[(0, ⟨gridFree, originT, [1]⟩)], [(1, ⟨⟨⟨0, 0⟩⟩, ⟨⟨0, 0, 0⟩⟩, some 0⟩)]⟩

/-- C4 counterexample: moving the grid from (0,0,0) to (0,0,1) leaves the
in-sync attached cell at (0,0,0) because the handler preserves the cell z
component, so the cell does not shift by the full translation difference
(0,0,1) that the claim as stated demands. -/
theorem c4_counterexample :
    zMoveWorld.lookupCell 1 = some ⟨⟨⟨0, 0⟩⟩, ⟨⟨0, 0, 0⟩⟩, some 0⟩
      ∧ (onGridMoved (setGridTranslation zMoveWorld 0 ⟨0, 0, 1⟩) 0).lookupCell 1
        = some ⟨⟨⟨0, 0⟩⟩, ⟨⟨0, 0, 0⟩⟩, some 0⟩
      ∧ (⟨0, 0, 0⟩ : Vec3) ≠ ⟨0, 0, 0⟩ + (⟨0, 0, 1⟩ - ⟨0, 0, 0⟩) := by
refine ⟨rfl, by with_unfolding_all rfl, ?_⟩
intro hcon
have hz := congrArg Vec3.z hcon
norm_num at hz

/-- The grid entity of the two-cell propagation scenario: grid at (1, 2, 0)
with two attached cells. -/
def syncGridEntity : GridEntity := ⟨gridFree, ⟨⟨1, 2, 0⟩⟩, [1, 2]⟩

/-- Two in-sync cells at coordinates (0,0) and (1,0); the second keeps a
distinct z component. -/
def syncWorld : World :=
⟨[(0, syncGridEntity)],
  [(1, ⟨⟨⟨0, 0⟩⟩, ⟨⟨1, 2, 0⟩⟩, some 0⟩), (2, ⟨⟨⟨1, 0⟩⟩, ⟨⟨2, 2, 7⟩⟩, some 0⟩)]⟩

/-- C4 witness: the propagation theorem at the concrete two-cell world moved
from (1,2,0) to (5,3,0). -/
theorem c4_witness :
    (syncWorld.lookupGrid 0 = some syncGridEntity ∧ syncGridEntity.attachedCells.Nodup)
      ∧ ∀ c ∈ syncGridEntity.attachedCells, ∃ ce ce2, syncWorld.lookupCell c = some ce
          ∧ (onGridMoved (setGridTranslation syncWorld 0 ⟨5, 3, 0⟩) 0).lookupCell c = some ce2
          ∧ ce2.cell = ce.cell
          ∧ ce2.transform.translation = ce.transform.translation
              + ⟨(5 : ℚ) - syncGridEntity.transform.translation.x,
                  (3 : ℚ) - syncGridEntity.transform.translation.y, 0⟩ := by
have hsync : ∀ c ∈ syncGridEntity.attachedCells, ∃ ce, syncWorld.lookupCell c = some ce
    ∧ ce.attached = some 0
    ∧ ce.transform.translation = syncGridEntity.transform.translation.with_z
        ce.transform.translation.z + syncGridEntity.grid.get_cell_position ce.cell := by
  intro c hc
  have hc2 : c = 1 ∨ c = 2 := by simpa [syncGridEntity] using hc
  rcases hc2 with rfl | rfl
  · exact ⟨⟨⟨⟨0, 0⟩⟩, ⟨⟨1, 2, 0⟩⟩, some 0⟩, rfl, rfl, by with_unfolding_all rfl⟩
  · exact ⟨⟨⟨⟨1, 0⟩⟩, ⟨⟨2, 2, 7⟩⟩, some 0⟩, rfl, rfl, by with_unfolding_all rfl⟩
exact ⟨⟨rfl, by decide⟩,
  c4_grid_move_propagation syncWorld 0 syncGridEntity ⟨5, 3, 0⟩ rfl (by decide) hsync⟩

end GridSnapping
